import Mathlib

/-!
Verification of the JAMB aggregate Telegram bot (`main.py`).

The development shallowly embeds the parts of the program the claims are
about: the points ledger built on SQLite tables (`ensure_user`,
`get_balance`, `add_points`, `set_referred`), the pure scoring functions
(`calc_method_1..3`, `calc_unizik`), and the per-user conversation state
machine driven by `text_router`.  SQLite tables become association lists,
machine integers become `Int`, Python floats become `ℚ` (the formulas are
exact decimal arithmetic), and each handler becomes a pure state
transformer.
-/

set_option autoImplicit false

namespace JambBot

/-! ## Configuration (defaults of the environment variables) -/

/-- `CALC_COST`: points debited per calculation (env default "1"). -/
def CALC_COST : Int := 1

/-- `NEW_USER_BONUS`: points granted to a new user (env default "10"). -/
def NEW_USER_BONUS : Int := 10

/-- `REF_BONUS`: points granted per referral (env default "5"). -/
def REF_BONUS : Int := 5

/-! ## Python string primitives

The bot only manipulates short ASCII strings.  The Lean core `String`
functions are not kernel-reducible, so the Python operations `strip`,
`upper`, `split(",")` and `int(...)` are embedded structurally on the
underlying character lists. -/

/-- Python `str.strip` whitespace (the characters relevant here). -/
def isSpaceChar (c : Char) : Bool :=
  c = ' ' || c = '\t' || c = '\n' || c = '\r'

/-- Strip leading and trailing whitespace from a character list. -/
def stripChars (l : List Char) : List Char :=
  ((l.dropWhile isSpaceChar).reverse.dropWhile isSpaceChar).reverse

/-- Python `s.strip()`. -/
def pyStrip (s : String) : String := ⟨stripChars s.data⟩

/-- Python `s.upper()` (ASCII letters, which is all the bot compares). -/
def pyUpper (s : String) : String := ⟨s.data.map Char.toUpper⟩

/-- Python `text.split(",")` on character lists; `"".split(",") == [""]`. -/
def splitComma : List Char → List (List Char)
  | [] => [[]]
  | c :: rest =>
    if c = ',' then [] :: splitComma rest
    else
      match splitComma rest with
      | [] => [[c]]
      | g :: gs => (c :: g) :: gs

/-- Decimal digit accumulation for `int(s)`. -/
def digitsVal (acc : Nat) : List Char → Option Nat
  | [] => some acc
  | c :: rest =>
    if c.isDigit then digitsVal (acc * 10 + (c.toNat - 48)) rest else none

/-- `int(s)` on a stripped character list: optional sign, then digits. -/
def parseIntChars : List Char → Option Int
  | [] => none
  | c :: rest =>
    if c = '-' then
      match rest with
      | [] => none
      | _ => (digitsVal 0 rest).map (fun n => -(n : Int))
    else if c = '+' then
      match rest with
      | [] => none
      | _ => (digitsVal 0 rest).map (fun n => (n : Int))
    else (digitsVal 0 (c :: rest)).map (fun n => (n : Int))

/-- `parse_int`: `int(s)` returning `None` on failure. -/
def parse_int (s : String) : Option Int := parseIntChars (stripChars s.data)

/-- `[g.strip().upper() for g in text.split(",") if g.strip()]`. -/
def parseGrades (text : String) : List String :=
  (((splitComma text.data).map stripChars).filter (fun g => g ≠ [])).map
    (fun g => pyUpper ⟨g⟩)

/-! ## Scoring Method Library

Each Python `gmap` dictionary becomes a total function `String → ℚ`
returning the `dict.get` default `0` off the table, exactly as
`gmap.get(g.upper(), 0)` does. -/

/-- The grade table inlined in `calc_method_2`:
`{"A1": 2.0, "B2": 1.8, "B3": 1.6, "C4": 1.4, "C5": 1.2, "C6": 1.0}`. -/
def gmapM2 (g : String) : ℚ :=
  if g = "A1" then 2 else if g = "B2" then 9/5 else if g = "B3" then 8/5
  else if g = "C4" then 7/5 else if g = "C5" then 6/5 else if g = "C6" then 1
  else 0

/-- The grade table inlined in `calc_method_3`:
`{"A1": 4.0, "B2": 3.6, "B3": 3.2, "C4": 2.8, "C5": 2.4, "C6": 2.0}`. -/
def gmapM3 (g : String) : ℚ :=
  if g = "A1" then 4 else if g = "B2" then 18/5 else if g = "B3" then 16/5
  else if g = "C4" then 14/5 else if g = "C5" then 12/5 else if g = "C6" then 2
  else 0

/-- The grade table inlined in `calc_unizik`:
`{"A1": 90, "B2": 80, "B3": 70, "C4": 60, "C5": 55, "C6": 50}`. -/
def gmapUnizik (g : String) : ℚ :=
  if g = "A1" then 90 else if g = "B2" then 80 else if g = "B3" then 70
  else if g = "C4" then 60 else if g = "C5" then 55 else if g = "C6" then 50
  else 0

/-- The closed Grade Code enumeration (the common key set of the three
tables). -/
def gradeCodes : List String := ["A1", "B2", "B3", "C4", "C5", "C6"]

/-- `calc_method_1(jamb, post_utme) = jamb/8.0 + post_utme/2.0`. -/
def calc_method_1 (jamb post_utme : Int) : ℚ :=
  (jamb : ℚ) / 8 + (post_utme : ℚ) / 2

/-- `calc_method_2`: jamb/8 + post/2 + sum of table values over
`olevel_grades[:5]` (the FIRST five entries). -/
def calc_method_2 (jamb post_utme : Int) (olevel_grades : List String) : ℚ :=
  (jamb : ℚ) / 8 + (post_utme : ℚ) / 2
    + ((olevel_grades.take 5).map (fun g => gmapM2 (pyUpper g))).sum

/-- `calc_method_3`: jamb/8 + sum of table values over
`olevel_grades[:5]`. -/
def calc_method_3 (jamb : Int) (olevel_grades : List String) : ℚ :=
  (jamb : ℚ) / 8 + ((olevel_grades.take 5).map (fun g => gmapM3 (pyUpper g))).sum

/-- `calc_unizik`: `jamb*0.7 + (olevel_points + bonus)*0.3` where
`olevel_points` sums the table over `grades4[:4]` and `bonus` is 10 on a
single sitting, else 0. -/
def calc_unizik (jamb : Int) (grades4 : List String) (one_sitting : Bool) : ℚ :=
  let olevel_points := ((grades4.take 4).map (fun g => gmapUnizik (pyUpper g))).sum
  let bonus : ℚ := if one_sitting then 10 else 0
  (jamb : ℚ) * (7/10) + (olevel_points + bonus) * (3/10)

/-! ## Points Ledger

The three SQLite tables `users`, `balances`, `tx` become association
lists / an append-only list.  `findVal` is `SELECT ... WHERE user_id = ?`
(first matching row), `insertIfAbsent` is `INSERT OR IGNORE`,
`updateAssoc` is `UPDATE ... WHERE user_id = ?`. -/

/-- One row of the `users` table (besides the key `user_id`). -/
structure UserRec where
  username : String
  referred : Bool
  referred_by : Option Nat
deriving DecidableEq, Repr

/-- One row of the `tx` table (besides `id`/`ts`, which no claim uses). -/
structure Tx where
  user : Nat
  change : Int
  reason : String
deriving DecidableEq, Repr

/-- The database state. -/
structure DB where
  users : List (Nat × UserRec)
  balances : List (Nat × Int)
  txs : List Tx
deriving DecidableEq, Repr

/-- `SELECT v FROM t WHERE key = k` (first matching row). -/
def findVal {α : Type} (k : Nat) : List (Nat × α) → Option α
  | [] => none
  | (k2, v) :: rest => if k2 = k then some v else findVal k rest

/-- `INSERT OR IGNORE INTO t VALUES (k, v)`. -/
def insertIfAbsent {α : Type} (l : List (Nat × α)) (k : Nat) (v : α) :
    List (Nat × α) :=
  match findVal k l with
  | some _ => l
  | none => (k, v) :: l

/-- `UPDATE t SET v = f v WHERE key = k`. -/
def updateAssoc {α : Type} (l : List (Nat × α)) (k : Nat) (f : α → α) :
    List (Nat × α) :=
  l.map fun p => if p.1 = k then (p.1, f p.2) else p

/-- The pair of statements
`INSERT OR IGNORE INTO balances(user_id, points) VALUES (?, 0)` followed by
`UPDATE balances SET points = points + ? WHERE user_id = ?`, which every
balance mutation in `main.py` performs. -/
def bumpBalance (b : List (Nat × Int)) (u : Nat) (p : Int) : List (Nat × Int) :=
  updateAssoc (insertIfAbsent b u 0) u (fun x => x + p)

/-- The freshly initialised database (`init_db` creates empty tables). -/
def initDB : DB := ⟨[], [], []⟩

/-- `ensure_user(user_id, username)`: create the user row with the
new-user bonus (recorded in `tx`) on first contact, otherwise refresh the
username and make sure a balance row exists. -/
def ensure_user (db : DB) (user_id : Nat) (username : String) : DB :=
  match findVal user_id db.users with
  | none =>
    { users := (user_id, ⟨username, false, none⟩) :: db.users
      balances := bumpBalance db.balances user_id NEW_USER_BONUS
      txs := db.txs ++ [⟨user_id, NEW_USER_BONUS, "New user bonus"⟩] }
  | some _ =>
    { users := updateAssoc db.users user_id (fun r => { r with username := username })
      balances := insertIfAbsent db.balances user_id 0
      txs := db.txs }

/-- `get_balance(user_id)`: `row[0] if row else 0`. -/
def get_balance (db : DB) (user_id : Nat) : Int :=
  (findVal user_id db.balances).getD 0

/-- `add_points(user_id, points, reason)`: append a `tx` row and apply the
signed delta to the balance. -/
def add_points (db : DB) (user_id : Nat) (points : Int) (reason : String) : DB :=
  { users := db.users
    balances := bumpBalance db.balances user_id points
    txs := db.txs ++ [⟨user_id, points, reason⟩] }

/-- `set_referred(new_user_id, referrer_id)`: refuse when the `referred`
flag of an existing row is already set; otherwise set
`referred_by`/`referred` (a no-op `UPDATE` when the row is absent) and
credit the referrer with `REF_BONUS`, recording one `tx` row. -/
def set_referred (db : DB) (new_user_id referrer_id : Nat) : DB × Bool :=
  let blocked :=
    match findVal new_user_id db.users with
    | some r => r.referred
    | none => false
  if blocked then (db, false)
  else
    ({ users := updateAssoc db.users new_user_id
          (fun r => { r with referred_by := some referrer_id, referred := true })
       balances := bumpBalance db.balances referrer_id REF_BONUS
       txs := db.txs ++ [⟨referrer_id, REF_BONUS, "Referral bonus"⟩] }, true)

/-- The referral part of the `/start` handler: `ensure_user` runs first,
then a token `ref_<id>` is honoured only when the parsed id is truthy and
differs from the caller (`if ref_id and ref_id != user.id`), in which case
`set_referred` is attempted. -/
def start_referral (db : DB) (user_id : Nat) (username : String)
    (ref_id : Option Nat) : DB × Bool :=
  let db1 := ensure_user db user_id username
  match ref_id with
  | some r => if r ≠ 0 ∧ r ≠ user_id then set_referred db1 user_id r else (db1, false)
  | none => (db1, false)

/-! ## Conversation State Engine (`text_router`) -/

/-- The values of `context.user_data["state"]` handled by `text_router`. -/
inductive Step
  | M1_JAMB | M1_POST
  | M2_JAMB | M2_POST | M2_OLEVEL
  | M3_JAMB | M3_OLEVEL
  | UNIZIK_JAMB | UNIZIK_OLEVEL | UNIZIK_SITTING
deriving DecidableEq, Repr

/-- The per-user `context.user_data` dictionary: keys may be absent. -/
structure Session where
  state : Option Step
  jamb : Option Int
  post : Option Int
  olevel_grades : Option (List String)
  selected_uni : Option String
deriving DecidableEq, Repr

/-- `context.user_data.clear()`. -/
def emptySession : Session := ⟨none, none, none, none, none⟩

/-- What the handler sends back: a plain prompt/error, or a computed
aggregate (the terminal result message, which accompanies the debit). -/
inductive Effect
  | reply (msg : String)
  | result (aggregate : ℚ)
deriving DecidableEq, Repr

/-- Python renders `f"...{None}..."` as the string "None". -/
def uniName : Option String → String
  | some s => s
  | none => "None"

/-- The reason tag of the debit at a terminal step. -/
def calcReason (sess : Session) : String :=
  "Calculation used for " ++ uniName sess.selected_uni

/-- The terminal-step bookkeeping shared by the `M1_POST`, `M2_OLEVEL` and
`M3_OLEVEL` branches: `ensure_user` then `add_points(-CALC_COST)`, message
with the aggregate, `user_data.clear()`. -/
def finishCalc (user_id : Nat) (username : String) (sess : Session) (db : DB)
    (aggregate : ℚ) : Session × DB × Effect :=
  let db1 := ensure_user db user_id username
  let db2 := add_points db1 user_id (-CALC_COST) (calcReason sess)
  (emptySession, db2, Effect.result aggregate)

/-- `text_router(update, context)`: dispatch on the session state, validate
the (stripped) text against the current step, advance or reprompt. -/
def text_router (sess : Session) (user_id : Nat) (username : String)
    (text0 : String) (db : DB) : Session × DB × Effect :=
  let text := pyStrip text0
  match sess.state with
  | some Step.M1_JAMB =>
    match parse_int text with
    | some jamb =>
      if 0 ≤ jamb ∧ jamb ≤ 400 then
        ({ sess with jamb := some jamb, state := some Step.M1_POST }, db,
          Effect.reply "Enter your Post-UTME score (0-100):")
      else (sess, db, Effect.reply "Invalid JAMB. Enter an integer 0-400.")
    | none => (sess, db, Effect.reply "Invalid JAMB. Enter an integer 0-400.")
  | some Step.M1_POST =>
    match parse_int text with
    | some post =>
      if 0 ≤ post ∧ post ≤ 100 then
        finishCalc user_id username sess db (calc_method_1 (sess.jamb.getD 0) post)
      else (sess, db, Effect.reply "Invalid Post-UTME. Enter an integer 0-100.")
    | none => (sess, db, Effect.reply "Invalid Post-UTME. Enter an integer 0-100.")
  | some Step.M2_JAMB =>
    match parse_int text with
    | some jamb =>
      if 0 ≤ jamb ∧ jamb ≤ 400 then
        ({ sess with jamb := some jamb, state := some Step.M2_POST }, db,
          Effect.reply "Enter your Post-UTME score (0-100):")
      else (sess, db, Effect.reply "Invalid JAMB. Enter an integer 0-400.")
    | none => (sess, db, Effect.reply "Invalid JAMB. Enter an integer 0-400.")
  | some Step.M2_POST =>
    match parse_int text with
    | some post =>
      if 0 ≤ post ∧ post ≤ 100 then
        ({ sess with post := some post, state := some Step.M2_OLEVEL }, db,
          Effect.reply "Enter 5 O-Level grades separated by commas:")
      else (sess, db, Effect.reply "Invalid Post-UTME. Enter an integer 0-100.")
    | none => (sess, db, Effect.reply "Invalid Post-UTME. Enter an integer 0-100.")
  | some Step.M2_OLEVEL =>
    let grades := parseGrades text
    if grades.length < 5 then
      (sess, db, Effect.reply "Please enter 5 grades (best 5).")
    else
      finishCalc user_id username sess db
        (calc_method_2 (sess.jamb.getD 0) (sess.post.getD 0) grades)
  | some Step.M3_JAMB =>
    match parse_int text with
    | some jamb =>
      if 0 ≤ jamb ∧ jamb ≤ 400 then
        ({ sess with jamb := some jamb, state := some Step.M3_OLEVEL }, db,
          Effect.reply "Enter 5 O-Level grades separated by commas:")
      else (sess, db, Effect.reply "Invalid JAMB. Enter an integer 0-400.")
    | none => (sess, db, Effect.reply "Invalid JAMB. Enter an integer 0-400.")
  | some Step.M3_OLEVEL =>
    let grades := parseGrades text
    if grades.length < 5 then
      (sess, db, Effect.reply "Please enter 5 grades (best 5).")
    else
      finishCalc user_id username sess db (calc_method_3 (sess.jamb.getD 0) grades)
  | some Step.UNIZIK_JAMB =>
    match parse_int text with
    | some jamb =>
      if 0 ≤ jamb ∧ jamb ≤ 400 then
        ({ sess with jamb := some jamb, state := some Step.UNIZIK_OLEVEL }, db,
          Effect.reply "Enter grades for the 4 JAMB subjects separated by commas:")
      else (sess, db, Effect.reply "Invalid JAMB. Enter an integer 0-400.")
    | none => (sess, db, Effect.reply "Invalid JAMB. Enter an integer 0-400.")
  | some Step.UNIZIK_OLEVEL =>
    let grades := parseGrades text
    if grades.length ≠ 4 then
      (sess, db, Effect.reply "Please enter exactly 4 grades.")
    else
      ({ sess with olevel_grades := some grades, state := some Step.UNIZIK_SITTING },
        db, Effect.reply "Were the 4 credits obtained in a single sitting?")
  | some Step.UNIZIK_SITTING =>
    (sess, db, Effect.reply "Send /start or /calculate to begin or use the buttons shown.")
  | none =>
    (sess, db, Effect.reply "Send /start or /calculate to begin or use the buttons shown.")

/-! ## The corrupted UNIZIK sitting-choice callback

The tail of `main.py` is corrupted: underscores were stripped from many
identifiers.  Inside `unizik_sitting_cb` (lines 422-443), line 437 reads
`await addpoints(user.id, -CALCCOST, ...)` although only `add_points` and
`CALC_COST` exist, so executing the handler past `ensure_user` raises
`NameError` before the debit, before the result message and before
`context.user_data.clear()`.  Independently, `build_app` registers the
handler under `pattern="^uniziksit\|"` (line 495) while the sitting
buttons send `unizik_sit|yes` / `unizik_sit|no` (lines 415-416), so the
dispatcher never routes the button press to the handler at all. -/

/-- Python `s.lower()`. -/
def pyLower (s : String) : String := ⟨s.data.map Char.toLower⟩

/-- Python `data.split("|", 1)` followed by the 2-tuple unpacking: the
part before and after the first bar, or `none` when there is no bar (the
unpacking then raises and the handler replies "Invalid choice"). -/
def splitBarOnce : List Char → Option (List Char × List Char)
  | [] => none
  | c :: rest =>
    if c = '|' then some ([], rest)
    else
      match splitBarOnce rest with
      | some (a, b) => some (c :: a, b)
      | none => none

/-- Prefix test on character lists. -/
def isPrefixChars : List Char → List Char → Bool
  | [], _ => true
  | _ :: _, [] => false
  | c :: cs, d :: ds => c = d && isPrefixChars cs ds

/-- Whether the dispatcher routes callback data to `unizik_sitting_cb`:
its registration pattern is the regular expression `^uniziksit\|`
(`main.py` line 495), i.e. the data must start with "uniziksit|". -/
def uniziksitPatternMatches (data : String) : Bool :=
  isPrefixChars "uniziksit|".data data.data

/-- The callback data the sitting-choice buttons actually send
(`main.py` lines 415-416). -/
def unizikSitData (yes : Bool) : String :=
  if yes then "unizik_sit|yes" else "unizik_sit|no"

/-- The observable outcome of one invocation of the sitting callback:
the session and database afterwards, the message it managed to send, and
the uncaught Python exception if one was raised. -/
structure CbOutcome where
  session : Session
  db : DB
  sent : Option Effect
  error : Option String
deriving DecidableEq, Repr

/-- `unizik_sitting_cb(update, context)` as written in the source
(`main.py` lines 422-443): parse the choice (replying "Invalid choice"
when the data has no bar, without clearing the session), compute the
score, run `ensure_user` — and then crash with `NameError` at the
undefined name `addpoints` (line 437), so no debit is issued, no result
is emitted and the session is never cleared. -/
def unizik_sitting_cb (sess : Session) (user_id : Nat) (username : String)
    (data : String) (db : DB) : CbOutcome :=
  match splitBarOnce data.data with
  | none =>
    { session := sess, db := db
      sent := some (Effect.reply "Invalid choice. Restart with /start."), error := none }
  | some (_, choiceChars) =>
    let one_sitting := pyLower ⟨choiceChars⟩ = "yes"
    let jamb := sess.jamb.getD 0
    let grades4 := sess.olevel_grades.getD []
    let _final_score := calc_unizik jamb grades4 one_sitting
    let db1 := ensure_user db user_id username
    { session := sess, db := db1, sent := none, error := some "NameError: addpoints" }

/-! ## Derived definitions used by the statements -/

/-- A balance-changing operation of the program, for quantifying over
arbitrary finite ledger histories: new-user onboarding (`ensure_user`),
a signed-delta credit/debit (`add_points`), or a referral attempt
(`set_referred`). -/
inductive LedgerOp
  | ensure (u : Nat) (name : String)
  | add (u : Nat) (p : Int) (reason : String)
  | refer (newU refU : Nat)
deriving DecidableEq, Repr

/-- Run one ledger operation against the database. -/
def applyOp (db : DB) : LedgerOp → DB
  | LedgerOp.ensure u name => ensure_user db u name
  | LedgerOp.add u p reason => add_points db u p reason
  | LedgerOp.refer a b => (set_referred db a b).1

/-- Run a finite sequence of ledger operations. -/
def applyOps (db : DB) (ops : List LedgerOp) : DB := ops.foldl applyOp db

/-- The sum of the transaction deltas recorded for one user. -/
def txSum (u : Nat) : List Tx → Int
  | [] => 0
  | t :: rest => (if t.user = u then t.change else 0) + txSum u rest

/-- The `referred` flag the database stores for a user (`0` when the row
is absent). -/
def referredFlag (db : DB) (u : Nat) : Bool :=
  match findVal u db.users with
  | some r => r.referred
  | none => false

/-- The unique successor of each `text_router` step in its variant's fixed
sequence (`none` for a terminal collection step, whose valid input tears
the session down). `UNIZIK_SITTING` is meant to be advanced by the
sitting-choice button callback — which in this source is corrupted and
never fires (see `unizik_sitting_cb`) — never by text, so no text input
is valid there. -/
def nextStep : Step → Option Step
  | Step.M1_JAMB => some Step.M1_POST
  | Step.M1_POST => none
  | Step.M2_JAMB => some Step.M2_POST
  | Step.M2_POST => some Step.M2_OLEVEL
  | Step.M2_OLEVEL => none
  | Step.M3_JAMB => some Step.M3_OLEVEL
  | Step.M3_OLEVEL => none
  | Step.UNIZIK_JAMB => some Step.UNIZIK_OLEVEL
  | Step.UNIZIK_OLEVEL => some Step.UNIZIK_SITTING
  | Step.UNIZIK_SITTING => none

/-- The validation `text_router` applies to a text input at each step. -/
def validInput (S : Step) (text0 : String) : Bool :=
  let text := pyStrip text0
  match S with
  | Step.M1_JAMB | Step.M2_JAMB | Step.M3_JAMB | Step.UNIZIK_JAMB =>
    match parse_int text with
    | some jamb => decide (0 ≤ jamb ∧ jamb ≤ 400)
    | none => false
  | Step.M1_POST | Step.M2_POST =>
    match parse_int text with
    | some post => decide (0 ≤ post ∧ post ≤ 100)
    | none => false
  | Step.M2_OLEVEL | Step.M3_OLEVEL => decide (¬ (parseGrades text).length < 5)
  | Step.UNIZIK_OLEVEL => decide ((parseGrades text).length = 4)
  | Step.UNIZIK_SITTING => false

/-- Insertion into a weakly descending list of weights. -/
def insertDesc (x : ℚ) : List ℚ → List ℚ
  | [] => [x]
  | y :: ys => if y ≤ x then x :: y :: ys else y :: insertDesc x ys

/-- Insertion sort into weakly descending order. -/
def sortDesc : List ℚ → List ℚ
  | [] => []
  | x :: xs => insertDesc x (sortDesc xs)

/-- Modelled from the spec: the credential contribution claimed by the
spec, "Σ(credential_weight[code] for best 5 grade codes)" — the sum of
the 5 highest weights occurring in the list. -/
def bestFiveSum (w : String → ℚ) (gs : List String) : ℚ :=
  ((sortDesc (gs.map (fun g => w (pyUpper g)))).take 5).sum

/-- Whether a (already upper-cased) code belongs to the closed Grade Code
enumeration, i.e. to the key set of the weight tables. -/
def knownGrade (g : String) : Bool := decide (g ∈ gradeCodes)

/-! ## Association-list and transaction-sum lemmas -/

theorem findVal_cons {α : Type} (a : Nat) (b : α) (l : List (Nat × α)) (k : Nat) :
    findVal k ((a, b) :: l) = if a = k then some b else findVal k l := rfl

theorem updateAssoc_cons {α : Type} (a : Nat) (b : α) (l : List (Nat × α)) (k : Nat)
    (f : α → α) :
    updateAssoc ((a, b) :: l) k f
      = (if a = k then (a, f b) else (a, b)) :: updateAssoc l k f := by
  by_cases h : a = k <;> simp [updateAssoc, h]

theorem findVal_updateAssoc_self {α : Type} (l : List (Nat × α)) (k : Nat) (f : α → α) :
    findVal k (updateAssoc l k f) = (findVal k l).map f := by
  induction l with
  | nil => rfl
  | cons p rest ih =>
    obtain ⟨k2, v⟩ := p
    rw [updateAssoc_cons, findVal_cons]
    by_cases h : k2 = k
    · rw [if_pos h, findVal_cons, if_pos h, if_pos h]
      rfl
    · rw [if_neg h, findVal_cons, if_neg h, if_neg h]
      exact ih

theorem findVal_updateAssoc_ne {α : Type} (l : List (Nat × α)) (k v0 : Nat) (f : α → α)
    (h : v0 ≠ k) : findVal v0 (updateAssoc l k f) = findVal v0 l := by
  induction l with
  | nil => rfl
  | cons p rest ih =>
    obtain ⟨k2, w⟩ := p
    rw [updateAssoc_cons, findVal_cons]
    by_cases h2 : k2 = k
    · have h3 : ¬ k2 = v0 := fun hh => h (hh ▸ h2)
      rw [if_pos h2, findVal_cons, if_neg h3, if_neg h3]
      exact ih
    · by_cases h3 : k2 = v0
      · rw [if_neg h2, findVal_cons, if_pos h3, if_pos h3]
      · rw [if_neg h2, findVal_cons, if_neg h3, if_neg h3]
        exact ih

theorem findVal_insertIfAbsent_self {α : Type} (l : List (Nat × α)) (k : Nat) (v : α) :
    findVal k (insertIfAbsent l k v) = some ((findVal k l).getD v) := by
  unfold insertIfAbsent
  cases h : findVal k l with
  | some w => simp [h]
  | none => simp [findVal, h]

theorem findVal_insertIfAbsent_ne {α : Type} (l : List (Nat × α)) (k v0 : Nat) (v : α)
    (h : v0 ≠ k) : findVal v0 (insertIfAbsent l k v) = findVal v0 l := by
  unfold insertIfAbsent
  cases h2 : findVal k l with
  | some w => rfl
  | none => simp [findVal, Ne.symm h]

theorem insertIfAbsent_of_isSome {α : Type} (l : List (Nat × α)) (k : Nat) (v : α)
    (h : (findVal k l).isSome) : insertIfAbsent l k v = l := by
  unfold insertIfAbsent
  cases h2 : findVal k l with
  | some w => rfl
  | none => simp [h2] at h

theorem bumpBalance_get (b : List (Nat × Int)) (u : Nat) (p : Int) (v : Nat) :
    (findVal v (bumpBalance b u p)).getD 0
      = (findVal v b).getD 0 + (if v = u then p else 0) := by
  by_cases h : v = u
  · subst h
    rw [bumpBalance, findVal_updateAssoc_self, findVal_insertIfAbsent_self]
    simp
  · rw [bumpBalance, findVal_updateAssoc_ne _ _ _ _ h, findVal_insertIfAbsent_ne _ _ _ _ h]
    simp [h]

theorem insertIfAbsent_get (b : List (Nat × Int)) (k v0 : Nat) :
    (findVal v0 (insertIfAbsent b k 0)).getD 0 = (findVal v0 b).getD 0 := by
  by_cases h : v0 = k
  · subst h
    rw [findVal_insertIfAbsent_self]
    cases findVal v0 b <;> simp
  · rw [findVal_insertIfAbsent_ne _ _ _ _ h]

theorem bumpBalance_isSome_self (b : List (Nat × Int)) (u : Nat) (p : Int) :
    (findVal u (bumpBalance b u p)).isSome := by
  rw [bumpBalance, findVal_updateAssoc_self, findVal_insertIfAbsent_self]
  rfl

theorem bumpBalance_isSome (b : List (Nat × Int)) (u : Nat) (p : Int) (v : Nat)
    (h : (findVal v b).isSome) : (findVal v (bumpBalance b u p)).isSome := by
  by_cases hv : v = u
  · subst hv; exact bumpBalance_isSome_self b v p
  · rw [bumpBalance, findVal_updateAssoc_ne _ _ _ _ hv, findVal_insertIfAbsent_ne _ _ _ _ hv]
    exact h

theorem txSum_append (u : Nat) (l1 l2 : List Tx) :
    txSum u (l1 ++ l2) = txSum u l1 + txSum u l2 := by
  induction l1 with
  | nil => simp [txSum]
  | cons t rest ih => simp [txSum, ih]; ring

/-! ## The ledger invariant (claim C2) -/

theorem inv_step (db : DB) (op : LedgerOp)
    (h : ∀ u, get_balance db u = txSum u db.txs) (u : Nat) :
    get_balance (applyOp db op) u = txSum u (applyOp db op).txs := by
  have hu := h u
  simp only [get_balance] at hu
  cases op with
  | ensure a name =>
    simp only [applyOp, ensure_user]
    cases hf : findVal a db.users with
    | none =>
      simp only [get_balance, bumpBalance_get, txSum_append, txSum]
      by_cases ha : u = a
      · subst ha; simp [hu]
      · simp [ha, Ne.symm ha, hu]
    | some r =>
      simp only [get_balance, insertIfAbsent_get]
      exact hu
  | add a p reason =>
    simp only [applyOp, add_points, get_balance, bumpBalance_get, txSum_append, txSum]
    by_cases ha : u = a
    · subst ha; simp [hu]
    · simp [ha, Ne.symm ha, hu]
  | refer a b =>
    simp only [applyOp, set_referred]
    by_cases hb : (match findVal a db.users with
        | some r => r.referred
        | none => false) = true
    · simp only [hb, if_pos]
      exact hu
    · simp only [hb, if_neg, Bool.not_eq_true]
      simp only [get_balance, bumpBalance_get, txSum_append, txSum]
      by_cases hab : u = b
      · subst hab; simp [hu]
      · simp [hab, Ne.symm hab, hu]

theorem applyOps_inv (ops : List LedgerOp) :
    ∀ db : DB, (∀ u, get_balance db u = txSum u db.txs) →
      ∀ u, get_balance (applyOps db ops) u = txSum u (applyOps db ops).txs := by
  induction ops with
  | nil => intro db h u; exact h u
  | cons op rest ih => intro db h u; exact ih (applyOp db op) (inv_step db op h) u

/-- C2: after any finite sequence of ledger operations (new-user bonus
credits from `ensure_user`, referral credits from `set_referred`,
calculation debits or any other signed delta from `add_points`, in any
order) starting from the fresh database, each user's stored balance equals
the sum of that user's appended transaction deltas, and the balance read
`get_balance` returns exactly that sum. -/
theorem C2_balance_invariant (ops : List LedgerOp) (u : Nat) :
    get_balance (applyOps initDB ops) u = txSum u (applyOps initDB ops).txs :=
  applyOps_inv ops initDB (fun _ => rfl) u

/-! ## Referral contract (claim C3) -/

theorem ensure_user_users_isSome (db : DB) (u : Nat) (n : String) :
    (findVal u (ensure_user db u n).users).isSome := by
  unfold ensure_user
  cases hf : findVal u db.users with
  | none => simp [findVal_cons]
  | some r => simp [findVal_updateAssoc_self, hf]

theorem ensure_user_balances_isSome (db : DB) (u : Nat) (n : String) :
    (findVal u (ensure_user db u n).balances).isSome := by
  unfold ensure_user
  cases hf : findVal u db.users with
  | none => simp [bumpBalance_isSome_self]
  | some r => simp [findVal_insertIfAbsent_self]

theorem ensure_user_referredFlag (db : DB) (u : Nat) (n : String) :
    referredFlag (ensure_user db u n) u = referredFlag db u := by
  unfold ensure_user referredFlag
  cases hf : findVal u db.users with
  | none => simp [findVal_cons, hf]
  | some r => simp [findVal_updateAssoc_self, hf]

theorem ensure_user_of_isSome (db : DB) (u : Nat) (n : String)
    (h : (findVal u db.users).isSome) :
    ensure_user db u n
      = { users := updateAssoc db.users u (fun r => { r with username := n })
          balances := insertIfAbsent db.balances u 0
          txs := db.txs } := by
  unfold ensure_user
  cases hf : findVal u db.users with
  | some r => rfl
  | none => rw [hf] at h; simp at h

theorem set_referred_eq (db : DB) (a b : Nat) :
    set_referred db a b =
      if referredFlag db a then (db, false)
      else ({ users := updateAssoc db.users a
                (fun r => { r with referred_by := some b, referred := true })
              balances := bumpBalance db.balances b REF_BONUS
              txs := db.txs ++ [⟨b, REF_BONUS, "Referral bonus"⟩] }, true) := rfl

theorem start_referral_after_success (dbE : DB) (u refU : Nat)
    (hUsers : (findVal u dbE.users).isSome)
    (hBal : (findVal u dbE.balances).isSome)
    (db2 : DB)
    (hdb2 : db2 = { users := updateAssoc dbE.users u
                      (fun r => { r with referred_by := some refU, referred := true })
                    balances := bumpBalance dbE.balances refU REF_BONUS
                    txs := dbE.txs ++ [⟨refU, REF_BONUS, "Referral bonus"⟩] }) :
    ∀ (uname2 : String) (refU2 : Option Nat),
      (start_referral db2 u uname2 refU2).2 = false ∧
      (start_referral db2 u uname2 refU2).1.balances = db2.balances ∧
      (start_referral db2 u uname2 refU2).1.txs = db2.txs := by
  intro uname2 refU2
  obtain ⟨r0, hr0⟩ := Option.isSome_iff_exists.mp hUsers
  have hUsers2 : findVal u db2.users = some { r0 with referred_by := some refU, referred := true } := by
    rw [hdb2]
    simp [findVal_updateAssoc_self, hr0]
  have hBal2 : (findVal u db2.balances).isSome := by
    rw [hdb2]
    exact bumpBalance_isSome _ _ _ _ hBal
  have hens : ensure_user db2 u uname2
      = { users := updateAssoc db2.users u (fun r => { r with username := uname2 })
          balances := db2.balances
          txs := db2.txs } := by
    rw [ensure_user_of_isSome db2 u uname2 (by rw [hUsers2]; rfl),
      insertIfAbsent_of_isSome _ _ _ hBal2]
  have hflag2 : referredFlag (ensure_user db2 u uname2) u = true := by
    rw [hens]
    unfold referredFlag
    simp [findVal_updateAssoc_self, hUsers2]
  cases refU2 with
  | none => simp [start_referral, hens]
  | some r2 =>
    by_cases hg : r2 ≠ 0 ∧ r2 ≠ u
    · have : start_referral db2 u uname2 (some r2)
          = set_referred (ensure_user db2 u uname2) u r2 := by
        simp [start_referral, hg]
      rw [this, set_referred_eq, if_pos hflag2, hens]
      exact ⟨rfl, rfl, rfl⟩
    · have : start_referral db2 u uname2 (some r2) = (ensure_user db2 u uname2, false) := by
        simp only [start_referral]
        rw [if_neg hg]
      rw [this, hens]
      exact ⟨rfl, rfl, rfl⟩

/-- C3: the referral-claim operation (the `/start` referral path:
`ensure_user` followed by the guarded `set_referred`) succeeds only if the
new user's `referred` flag is currently false; on success it sets
`referred = true`, records `referred_by = referrer`, and appends exactly
one credit of `REF_BONUS` to the referrer's ledger; on failure (already
referred, or self-referral) it performs no ledger mutation beyond the
onboarding `ensure_user`; and after a success any second claim for the
same new user fails and credits nothing further. -/
theorem C3_referral_contract (db : DB) (u : Nat) (uname : String) (refU : Nat)
    (db2 : DB) (ok : Bool)
    (h : start_referral db u uname (some refU) = (db2, ok)) :
    (ok = true →
      (refU ≠ 0 ∧ refU ≠ u ∧ referredFlag db u = false) ∧
      referredFlag db2 u = true ∧
      (findVal u db2.users).map (fun r => r.referred_by) = some (some refU) ∧
      get_balance db2 refU = get_balance (ensure_user db u uname) refU + REF_BONUS ∧
      db2.txs = (ensure_user db u uname).txs ++ [⟨refU, REF_BONUS, "Referral bonus"⟩] ∧
      (∀ (uname2 : String) (refU2 : Option Nat),
        (start_referral db2 u uname2 refU2).2 = false ∧
        (start_referral db2 u uname2 refU2).1.balances = db2.balances ∧
        (start_referral db2 u uname2 refU2).1.txs = db2.txs)) ∧
    (ok = false →
      db2.balances = (ensure_user db u uname).balances ∧
      db2.txs = (ensure_user db u uname).txs) ∧
    ((referredFlag db u = true ∨ refU = u) → ok = false) := by
  have hflag := ensure_user_referredFlag db u uname
  have hUsers := ensure_user_users_isSome db u uname
  have hBal := ensure_user_balances_isSome db u uname
  by_cases hg : refU ≠ 0 ∧ refU ≠ u
  · have hsr : start_referral db u uname (some refU)
        = set_referred (ensure_user db u uname) u refU := by
      simp [start_referral, hg]
    by_cases hbk : referredFlag (ensure_user db u uname) u = true
    · have heq : start_referral db u uname (some refU) = (ensure_user db u uname, false) := by
        rw [hsr, set_referred_eq, if_pos hbk]
      rw [heq] at h
      injection h with h1 h2
      subst h1
      refine ⟨fun hok => absurd (h2.trans hok) (by simp), fun _ => ⟨rfl, rfl⟩, fun _ => h2.symm⟩
    · have heq : start_referral db u uname (some refU)
          = ({ users := updateAssoc (ensure_user db u uname).users u
                 (fun r => { r with referred_by := some refU, referred := true })
               balances := bumpBalance (ensure_user db u uname).balances refU REF_BONUS
               txs := (ensure_user db u uname).txs ++ [⟨refU, REF_BONUS, "Referral bonus"⟩] },
             true) := by
        rw [hsr, set_referred_eq, if_neg hbk]
      rw [heq] at h
      injection h with h1 h2
      subst h1
      obtain ⟨r0, hr0⟩ := Option.isSome_iff_exists.mp hUsers
      refine ⟨fun _ => ?_, fun hok => absurd (h2.trans hok) (by simp), fun hor => ?_⟩
      · refine ⟨⟨hg.1, hg.2, ?_⟩, ?_, ?_, ?_, rfl, ?_⟩
        · rw [← hflag]
          exact Bool.not_eq_true _ ▸ (Bool.of_not_eq_true hbk)
        · unfold referredFlag
          simp [findVal_updateAssoc_self, hr0]
        · simp [findVal_updateAssoc_self, hr0]
        · simp [get_balance, bumpBalance_get]
        · exact start_referral_after_success (ensure_user db u uname) u refU hUsers hBal _ rfl
      · exfalso
        rcases hor with hor | hor
        · exact hbk (hflag.trans hor)
        · exact hg.2 hor
  · have heq : start_referral db u uname (some refU) = (ensure_user db u uname, false) := by
      simp only [start_referral]
      rw [if_neg hg]
    rw [heq] at h
    injection h with h1 h2
    subst h1
    exact ⟨fun hok => absurd (h2.trans hok) (by simp), fun _ => ⟨rfl, rfl⟩, fun _ => h2.symm⟩

/-- Witness for C3 at a concrete input: user 1 starting with token of
referrer 2 on the fresh database succeeds, sets the flag, credits the
referrer by `REF_BONUS`, and a repeated claim yields no further credit. -/
theorem C3_witness :
    (start_referral initDB 1 "y" (some 2)).2 = true ∧
    referredFlag (start_referral initDB 1 "y" (some 2)).1 1 = true ∧
    get_balance (start_referral initDB 1 "y" (some 2)).1 2
      = get_balance (ensure_user initDB 1 "y") 2 + REF_BONUS ∧
    (start_referral (start_referral initDB 1 "y" (some 2)).1 1 "y" (some 2)).2 = false := by
  have h := C3_referral_contract initDB 1 "y" 2
    (start_referral initDB 1 "y" (some 2)).1 (start_referral initDB 1 "y" (some 2)).2 rfl
  have hok : (start_referral initDB 1 "y" (some 2)).2 = true := by decide
  obtain ⟨h1, _, _⟩ := h
  obtain ⟨_, hf, _, hbal, _, hsecond⟩ := h1 hok
  exact ⟨hok, hf, hbal, (hsecond "y" (some 2)).1⟩

/-! ## Step monotonicity (claim C5) -/

/-- The transition discipline of `text_router`: for a session at any
text-handled step `S`, an input that fails that step's validation leaves
the session at `S` (the router replies with a correction and does not
move), and an input that passes it moves the session to the unique next
step of that variant's fixed sequence (`nextStep S`; `none` means the
terminal collection step completed and the session was torn down).  No
text input is routed to the sitting-choice step, so none is valid there;
the selection input that is supposed to advance that step is handled by
the corrupted `unizik_sitting_cb` and never advances it (see
`C5_sitting_never_advances`). -/
theorem text_router_step_discipline (S : Step) (j p : Option Int) (og : Option (List String))
    (su : Option String) (u : Nat) (uname t : String) (db : DB) :
    (validInput S t = false →
      (text_router ⟨some S, j, p, og, su⟩ u uname t db).1.state = some S) ∧
    (validInput S t = true →
      (text_router ⟨some S, j, p, og, su⟩ u uname t db).1.state = nextStep S) := by
  cases S
  case M1_JAMB =>
    constructor <;>
      simp only [validInput, text_router] <;>
      cases hp : parse_int (pyStrip t) <;>
      intro hv <;>
      simp_all [nextStep] <;>
      (try split) <;>
      (try simp_all) <;>
      omega
  case M1_POST =>
    constructor <;>
      simp only [validInput, text_router] <;>
      cases hp : parse_int (pyStrip t) <;>
      intro hv <;>
      simp_all [nextStep, finishCalc, emptySession] <;>
      (try split) <;>
      (try simp_all) <;>
      omega <;>
      (try split) <;>
      (try simp_all) <;>
      omega
  case M2_JAMB =>
    constructor <;>
      simp only [validInput, text_router] <;>
      cases hp : parse_int (pyStrip t) <;>
      intro hv <;>
      simp_all [nextStep] <;>
      (try split) <;>
      (try simp_all) <;>
      omega
  case M2_POST =>
    constructor <;>
      simp only [validInput, text_router] <;>
      cases hp : parse_int (pyStrip t) <;>
      intro hv <;>
      simp_all [nextStep] <;>
      (try split) <;>
      (try simp_all) <;>
      omega
  case M2_OLEVEL =>
    constructor <;>
      simp only [validInput, text_router] <;>
      intro hv <;>
      simp_all [nextStep, finishCalc, emptySession] <;>
      (try split) <;>
      (try simp_all) <;>
      omega
  case M3_JAMB =>
    constructor <;>
      simp only [validInput, text_router] <;>
      cases hp : parse_int (pyStrip t) <;>
      intro hv <;>
      simp_all [nextStep] <;>
      (try split) <;>
      (try simp_all) <;>
      omega
  case M3_OLEVEL =>
    constructor <;>
      simp only [validInput, text_router] <;>
      intro hv <;>
      simp_all [nextStep, finishCalc, emptySession] <;>
      (try split) <;>
      (try simp_all) <;>
      omega
  case UNIZIK_JAMB =>
    constructor <;>
      simp only [validInput, text_router] <;>
      cases hp : parse_int (pyStrip t) <;>
      intro hv <;>
      simp_all [nextStep] <;>
      (try split) <;>
      (try simp_all) <;>
      omega
  case UNIZIK_OLEVEL =>
    constructor <;>
      simp only [validInput, text_router] <;>
      intro hv <;>
      simp_all [nextStep]
  case UNIZIK_SITTING =>
    constructor <;> intro hv
    · rfl
    · simp [validInput] at hv

/-- `text_router_step_discipline` exercised at a concrete step and
inputs: at `M1_JAMB`, the invalid input "abc" keeps the session at
`M1_JAMB`, and the valid input "250" advances it to `M1_POST`. -/
theorem text_router_step_discipline_example :
    (text_router ⟨some Step.M1_JAMB, none, none, none, none⟩ 1 "u" "abc" initDB).1.state
        = some Step.M1_JAMB ∧
    (text_router ⟨some Step.M1_JAMB, none, none, none, none⟩ 1 "u" "250" initDB).1.state
        = nextStep Step.M1_JAMB := by
  refine ⟨(text_router_step_discipline Step.M1_JAMB none none none none 1 "u" "abc" initDB).1 ?_,
    (text_router_step_discipline Step.M1_JAMB none none none none 1 "u" "250" initDB).2 ?_⟩
  · decide
  · decide

/-- C5: the code bug at the sitting-choice step, evaluated at the failing
input.  The only valid input at `UNIZIK_SITTING` is the yes/no selection,
and in this source it never advances the session: the buttons send
`unizik_sit|yes` / `unizik_sit|no` but the handler is registered under the
pattern `^uniziksit\|`, which matches neither, so the handler never
fires; and even executing the handler body on that data raises
`NameError` at the undefined name `addpoints` — after `ensure_user` but
before the debit, the result message and the session teardown — leaving
the session at `UNIZIK_SITTING` with the balance unchanged and nothing
emitted.  The same file defines and elsewhere uses `add_points` and
`CALC_COST`, and the same body defines `one_sitting`/`final_score` yet
references `onesitting`/`finalscore`, so the mangled names are a slip and
the claimed always-advance behavior is the evident intent. -/
theorem C5_sitting_never_advances :
    uniziksitPatternMatches (unizikSitData true) = false ∧
    uniziksitPatternMatches (unizikSitData false) = false ∧
    (unizik_sitting_cb
        ⟨some Step.UNIZIK_SITTING, some 280, none, some ["A1", "B3", "C4", "B2"], none⟩
        1 "u" (unizikSitData true)
        ⟨[(1, ⟨"u", false, none⟩)], [(1, 3)], []⟩).error = some "NameError: addpoints" ∧
    (unizik_sitting_cb
        ⟨some Step.UNIZIK_SITTING, some 280, none, some ["A1", "B3", "C4", "B2"], none⟩
        1 "u" (unizikSitData true)
        ⟨[(1, ⟨"u", false, none⟩)], [(1, 3)], []⟩).session.state
      = some Step.UNIZIK_SITTING ∧
    (unizik_sitting_cb
        ⟨some Step.UNIZIK_SITTING, some 280, none, some ["A1", "B3", "C4", "B2"], none⟩
        1 "u" (unizikSitData true)
        ⟨[(1, ⟨"u", false, none⟩)], [(1, 3)], []⟩).sent = none ∧
    get_balance (unizik_sitting_cb
        ⟨some Step.UNIZIK_SITTING, some 280, none, some ["A1", "B3", "C4", "B2"], none⟩
        1 "u" (unizikSitData true)
        ⟨[(1, ⟨"u", false, none⟩)], [(1, 3)], []⟩).db 1 = 3 := by
  refine ⟨by decide, by decide, rfl, rfl, rfl, by decide⟩

/-! ## Scenario theorems (claims C8, C9) and the missing balance check (C1) -/

/-- C8: Scenario A with default configuration: a new user is created with
balance 10 (the one-time bonus); running the SCORE_ONLY flow with
primary=300 and secondary=70 produces the aggregate 300/8 + 70/2 = 72.5
and leaves the balance at 9 after the debit of `CALC_COST = 1`. -/
theorem C8_scenario_a :
    get_balance (ensure_user initDB 1 "alice") 1 = 10 ∧
    (text_router
        (text_router ⟨some Step.M1_JAMB, none, none, none, some "UNILAG"⟩ 1 "alice" "300"
          (ensure_user initDB 1 "alice")).1
        1 "alice" "70"
        (text_router ⟨some Step.M1_JAMB, none, none, none, some "UNILAG"⟩ 1 "alice" "300"
          (ensure_user initDB 1 "alice")).2.1).2.2
      = Effect.result (calc_method_1 300 70) ∧
    calc_method_1 300 70 = 145/2 ∧
    get_balance
      (text_router
        (text_router ⟨some Step.M1_JAMB, none, none, none, some "UNILAG"⟩ 1 "alice" "300"
          (ensure_user initDB 1 "alice")).1
        1 "alice" "70"
        (text_router ⟨some Step.M1_JAMB, none, none, none, some "UNILAG"⟩ 1 "alice" "300"
          (ensure_user initDB 1 "alice")).2.1).2.1 1 = 9 := by
  refine ⟨by decide, rfl, ?_, by decide⟩
  norm_num [calc_method_1]

/-- C9: Scenario C: the institution-specific screening formula on
primary=280, grades [A1,B3,C4,B2] and a single sitting yields
280*0.7 + (90+70+60+80+10)*0.3 = 289; without the single sitting the
bonus term is zero and the result is 280*0.7 + (300+0)*0.3 = 286. -/
theorem C9_scenario_c :
    calc_unizik 280 ["A1", "B3", "C4", "B2"] true = 289 ∧
    calc_unizik 280 ["A1", "B3", "C4", "B2"] false
      = (280 : ℚ) * (7/10) + (((90 : ℚ) + 70 + 60 + 80) + 0) * (3/10) ∧
    calc_unizik 280 ["A1", "B3", "C4", "B2"] false = 286 := by
  have h1 : gmapUnizik (pyUpper "A1") = 90 := rfl
  have h2 : gmapUnizik (pyUpper "B3") = 70 := rfl
  have h3 : gmapUnizik (pyUpper "C4") = 60 := rfl
  have h4 : gmapUnizik (pyUpper "B2") = 80 := rfl
  refine ⟨?_, ?_, ?_⟩ <;> simp [calc_unizik, h1, h2, h3, h4] <;> norm_num

/-- C1 counterexample: a user whose balance is 0 reaches the terminal
collection step of the SCORE_ONLY variant with a valid input; contrary to
the claim, the engine computes and emits the aggregate and issues the
debit, leaving the balance at -1 instead of unchanged. -/
theorem C1_counterexample :
    get_balance (⟨[(1, ⟨"u", false, none⟩)], [(1, 0)], []⟩ : DB) 1 = 0 ∧
    (text_router ⟨some Step.M1_POST, some 300, none, none, none⟩ 1 "u" "70"
        ⟨[(1, ⟨"u", false, none⟩)], [(1, 0)], []⟩).2.2
      = Effect.result (calc_method_1 300 70) ∧
    get_balance (text_router ⟨some Step.M1_POST, some 300, none, none, none⟩ 1 "u" "70"
        ⟨[(1, ⟨"u", false, none⟩)], [(1, 0)], []⟩).2.1 1 = -1 := by
  exact ⟨rfl, rfl, by decide⟩

/-- What the shared terminal-step bookkeeping does for an existing user:
emits the aggregate, debits `CALC_COST`, clears the session. -/
theorem finishCalc_spec (db : DB) (u : Nat) (uname : String) (sess : Session) (a : ℚ)
    (hex : (findVal u db.users).isSome) :
    (finishCalc u uname sess db a).2.2 = Effect.result a ∧
    get_balance (finishCalc u uname sess db a).2.1 u = get_balance db u - CALC_COST ∧
    (finishCalc u uname sess db a).1 = emptySession := by
  refine ⟨rfl, ?_, rfl⟩
  simp only [finishCalc, add_points, get_balance, bumpBalance_get,
    ensure_user_of_isSome db u uname hex]
  simp [insertIfAbsent_get, CALC_COST]
  omega

/-- C1 amended: no insufficient-credits check exists anywhere.  At the
three text-handled terminal collection steps (`M1_POST`, `M2_OLEVEL`,
`M3_OLEVEL`), even for a user whose balance is ≤ 0, the engine still
computes and emits the aggregate, still debits `CALC_COST` — driving the
balance below zero — and tears the session down normally.  At the
institution-specific variant's terminal (the sitting choice) no debit,
no aggregate and no teardown happen either, but not because of any
balance check: the corrupted handler's registration pattern never matches
the button data, and its body raises `NameError` before the debit, the
message and the teardown, leaving the session at the sitting step and the
balance unchanged.  No insufficient-credits message and no ABANDONED path
exist in the code. -/
theorem C1_no_insufficiency_check (db : DB) (u : Nat) (uname : String) (j : Int)
    (p : Option Int) (og : Option (List String)) (su : Option String)
    (hex : (findVal u db.users).isSome)
    (hbal : get_balance db u ≤ 0) :
    ((text_router ⟨some Step.M1_POST, some j, p, og, su⟩ u uname "70" db).2.2
        = Effect.result (calc_method_1 j 70) ∧
      get_balance (text_router ⟨some Step.M1_POST, some j, p, og, su⟩ u uname "70" db).2.1 u
        = get_balance db u - CALC_COST ∧
      get_balance (text_router ⟨some Step.M1_POST, some j, p, og, su⟩ u uname "70" db).2.1 u < 0 ∧
      (text_router ⟨some Step.M1_POST, some j, p, og, su⟩ u uname "70" db).1 = emptySession) ∧
    ((text_router ⟨some Step.M2_OLEVEL, some j, p, og, su⟩ u uname "A1,B2,B3,C4,C5" db).2.2
        = Effect.result (calc_method_2 j (p.getD 0) (parseGrades (pyStrip "A1,B2,B3,C4,C5"))) ∧
      get_balance (text_router ⟨some Step.M2_OLEVEL, some j, p, og, su⟩ u uname
          "A1,B2,B3,C4,C5" db).2.1 u = get_balance db u - CALC_COST ∧
      get_balance (text_router ⟨some Step.M2_OLEVEL, some j, p, og, su⟩ u uname
          "A1,B2,B3,C4,C5" db).2.1 u < 0 ∧
      (text_router ⟨some Step.M2_OLEVEL, some j, p, og, su⟩ u uname
          "A1,B2,B3,C4,C5" db).1 = emptySession) ∧
    ((text_router ⟨some Step.M3_OLEVEL, some j, p, og, su⟩ u uname "A1,B2,B3,C4,C5" db).2.2
        = Effect.result (calc_method_3 j (parseGrades (pyStrip "A1,B2,B3,C4,C5"))) ∧
      get_balance (text_router ⟨some Step.M3_OLEVEL, some j, p, og, su⟩ u uname
          "A1,B2,B3,C4,C5" db).2.1 u = get_balance db u - CALC_COST ∧
      get_balance (text_router ⟨some Step.M3_OLEVEL, some j, p, og, su⟩ u uname
          "A1,B2,B3,C4,C5" db).2.1 u < 0 ∧
      (text_router ⟨some Step.M3_OLEVEL, some j, p, og, su⟩ u uname
          "A1,B2,B3,C4,C5" db).1 = emptySession) ∧
    (uniziksitPatternMatches (unizikSitData true) = false ∧
      uniziksitPatternMatches (unizikSitData false) = false ∧
      (unizik_sitting_cb ⟨some Step.UNIZIK_SITTING, some j, p, og, su⟩ u uname
          (unizikSitData true) db).error = some "NameError: addpoints" ∧
      (unizik_sitting_cb ⟨some Step.UNIZIK_SITTING, some j, p, og, su⟩ u uname
          (unizikSitData true) db).sent = none ∧
      (unizik_sitting_cb ⟨some Step.UNIZIK_SITTING, some j, p, og, su⟩ u uname
          (unizikSitData true) db).session.state = some Step.UNIZIK_SITTING ∧
      get_balance (unizik_sitting_cb ⟨some Step.UNIZIK_SITTING, some j, p, og, su⟩ u uname
          (unizikSitData true) db).db u = get_balance db u) := by
  have hub : get_balance (ensure_user db u uname) u = get_balance db u := by
    rw [ensure_user_of_isSome db u uname hex]
    simp [get_balance, insertIfAbsent_get]
  refine ⟨?_, ?_, ?_, ?_⟩
  · have hstep : text_router ⟨some Step.M1_POST, some j, p, og, su⟩ u uname "70" db
        = finishCalc u uname ⟨some Step.M1_POST, some j, p, og, su⟩ db
            (calc_method_1 j 70) := rfl
    rw [hstep]
    obtain ⟨ha, hb, hc⟩ := finishCalc_spec db u uname
      ⟨some Step.M1_POST, some j, p, og, su⟩ (calc_method_1 j 70) hex
    exact ⟨ha, hb, by rw [hb]; simp only [CALC_COST]; omega, hc⟩
  · have hstep : text_router ⟨some Step.M2_OLEVEL, some j, p, og, su⟩ u uname
        "A1,B2,B3,C4,C5" db
        = finishCalc u uname ⟨some Step.M2_OLEVEL, some j, p, og, su⟩ db
            (calc_method_2 j (p.getD 0) (parseGrades (pyStrip "A1,B2,B3,C4,C5"))) := rfl
    rw [hstep]
    obtain ⟨ha, hb, hc⟩ := finishCalc_spec db u uname
      ⟨some Step.M2_OLEVEL, some j, p, og, su⟩
      (calc_method_2 j (p.getD 0) (parseGrades (pyStrip "A1,B2,B3,C4,C5"))) hex
    exact ⟨ha, hb, by rw [hb]; simp only [CALC_COST]; omega, hc⟩
  · have hstep : text_router ⟨some Step.M3_OLEVEL, some j, p, og, su⟩ u uname
        "A1,B2,B3,C4,C5" db
        = finishCalc u uname ⟨some Step.M3_OLEVEL, some j, p, og, su⟩ db
            (calc_method_3 j (parseGrades (pyStrip "A1,B2,B3,C4,C5"))) := rfl
    rw [hstep]
    obtain ⟨ha, hb, hc⟩ := finishCalc_spec db u uname
      ⟨some Step.M3_OLEVEL, some j, p, og, su⟩
      (calc_method_3 j (parseGrades (pyStrip "A1,B2,B3,C4,C5"))) hex
    exact ⟨ha, hb, by rw [hb]; simp only [CALC_COST]; omega, hc⟩
  · have hcb : unizik_sitting_cb ⟨some Step.UNIZIK_SITTING, some j, p, og, su⟩ u uname
        (unizikSitData true) db
        = { session := ⟨some Step.UNIZIK_SITTING, some j, p, og, su⟩
            db := ensure_user db u uname
            sent := none
            error := some "NameError: addpoints" } := rfl
    refine ⟨by decide, by decide, ?_, ?_, ?_, ?_⟩
    · rw [hcb]
    · rw [hcb]
    · rw [hcb]
    · rw [hcb]
      exact hub

/-- Witness for C1 (amended): the concrete user 2 with balance exactly 0
gets the aggregate emitted and ends at balance -1 at a text terminal,
while the sitting callback on the same database raises the `NameError`. -/
theorem C1_witness :
    (text_router ⟨some Step.M1_POST, some 300, none, none, none⟩ 2 "u" "70"
        (⟨[(2, ⟨"u", false, none⟩)], [(2, 0)], []⟩ : DB)).2.2
      = Effect.result (calc_method_1 300 70) ∧
    get_balance (text_router ⟨some Step.M1_POST, some 300, none, none, none⟩ 2 "u" "70"
        (⟨[(2, ⟨"u", false, none⟩)], [(2, 0)], []⟩ : DB)).2.1 2 < 0 ∧
    (unizik_sitting_cb ⟨some Step.UNIZIK_SITTING, some 300, none, none, none⟩ 2 "u"
        (unizikSitData true) (⟨[(2, ⟨"u", false, none⟩)], [(2, 0)], []⟩ : DB)).error
      = some "NameError: addpoints" := by
  have h := C1_no_insufficiency_check (⟨[(2, ⟨"u", false, none⟩)], [(2, 0)], []⟩ : DB)
    2 "u" 300 none none none (by decide) (by decide)
  exact ⟨h.1.1, h.1.2.2.1, h.2.2.2.2.2.1⟩

/-! ## Grade-list validation (claim C4) -/

/-- C4 counterexample: the claim says a grade-list input is accepted iff
it has exactly K codes all from the closed enumeration.  At the
credentials step the router accepts 6 codes (count ≠ 5) and also accepts
5 entries that are not grade codes at all, advancing/completing the
session in both cases. -/
theorem C4_counterexample :
    (parseGrades "A1,A1,A1,A1,A1,A1").length = 6 ∧
    (text_router ⟨some Step.M2_OLEVEL, some 320, some 60, none, none⟩ 1 "u"
        "A1,A1,A1,A1,A1,A1" initDB).1.state ≠ some Step.M2_OLEVEL ∧
    (text_router ⟨some Step.M2_OLEVEL, some 320, some 60, none, none⟩ 1 "u"
        "A1,A1,A1,A1,A1,A1" initDB).2.2
      = Effect.result (calc_method_2 320 60 (parseGrades (pyStrip "A1,A1,A1,A1,A1,A1"))) ∧
    (text_router ⟨some Step.M2_OLEVEL, some 320, some 60, none, none⟩ 1 "u"
        "XX,YY,ZZ,WW,VV" initDB).1.state ≠ some Step.M2_OLEVEL := by
  exact ⟨by decide, by decide, rfl, by decide⟩

/-- C4 amended: at the grade-code-list steps the router checks only the
COUNT of nonempty comma-separated entries — at least 5 (not exactly 5)
for the credential variants, exactly 4 for the institution-specific
screening variant — and never validates the entries against the Grade
Code enumeration; on a count failure the session stays at the same step,
otherwise it advances/completes. -/
theorem C4_count_only (j p : Option Int) (og : Option (List String))
    (su : Option String) (u : Nat) (uname t : String) (db : DB) :
    ((text_router ⟨some Step.M2_OLEVEL, j, p, og, su⟩ u uname t db).1.state
        = some Step.M2_OLEVEL ↔ (parseGrades (pyStrip t)).length < 5) ∧
    ((text_router ⟨some Step.M3_OLEVEL, j, p, og, su⟩ u uname t db).1.state
        = some Step.M3_OLEVEL ↔ (parseGrades (pyStrip t)).length < 5) ∧
    ((text_router ⟨some Step.UNIZIK_OLEVEL, j, p, og, su⟩ u uname t db).1.state
        = some Step.UNIZIK_OLEVEL ↔ (parseGrades (pyStrip t)).length ≠ 4) := by
  refine ⟨?_, ?_, ?_⟩ <;>
    simp only [text_router] <;>
    split <;>
    simp_all [emptySession, finishCalc]

/-! ## The two credential weight tables (claim C7) -/

/-- C7 counterexample: the spec claims the table of the admission-test
variant (`calc_method_2`) assigns strictly higher weights; in the code it
assigns 2.0 to A1 while the no-admission-test table (`calc_method_3`)
assigns 4.0, so the claimed inequality fails at A1. -/
theorem C7_counterexample :
    gmapM2 "A1" = 2 ∧ gmapM3 "A1" = 4 ∧ ¬ gmapM2 "A1" > gmapM3 "A1" := by
  refine ⟨rfl, rfl, ?_⟩
  rw [show gmapM2 "A1" = 2 from rfl, show gmapM3 "A1" = 4 from rfl]
  norm_num

/-- C7 amended: the relation is reversed: for every grade code in the
closed enumeration, the table used WITHOUT an admission test
(`calc_method_3`) assigns a strictly higher weight than the table used
WITH one (`calc_method_2`). -/
theorem C7_weight_order (c : String) (hc : c ∈ gradeCodes) :
    gmapM2 c < gmapM3 c := by
  simp only [gradeCodes, List.mem_cons, List.not_mem_nil, or_false] at hc
  rcases hc with h | h | h | h | h | h <;> subst h
  · show (2 : ℚ) < 4
    norm_num
  · show (9/5 : ℚ) < 18/5
    norm_num
  · show (8/5 : ℚ) < 16/5
    norm_num
  · show (7/5 : ℚ) < 14/5
    norm_num
  · show (6/5 : ℚ) < 12/5
    norm_num
  · show (1 : ℚ) < 2
    norm_num

/-- Witness for C7 (amended) at the concrete code A1. -/
theorem C7_witness : ("A1" ∈ gradeCodes) ∧ gmapM2 "A1" < gmapM3 "A1" :=
  ⟨by decide, C7_weight_order "A1" (by decide)⟩

/-! ## First five versus best five (claim C6) -/

theorem insertDesc_perm (x : ℚ) (l : List ℚ) : (insertDesc x l).Perm (x :: l) := by
  induction l with
  | nil => exact List.Perm.refl [x]
  | cons y ys ih =>
    unfold insertDesc
    by_cases h : y ≤ x
    · rw [if_pos h]
    · rw [if_neg h]
      exact (ih.cons y).trans (List.Perm.swap x y ys)

theorem sortDesc_perm (l : List ℚ) : (sortDesc l).Perm l := by
  induction l with
  | nil => exact List.Perm.refl []
  | cons x xs ih => exact (insertDesc_perm x (sortDesc xs)).trans (ih.cons x)

/-- C6 counterexample: for the accepted 6-entry list
[C6,C6,C6,C6,C6,A1] the code sums the weights of the FIRST five codes
(5 × 1.0 = 5.0) while the sum of the weights of the best 5 codes is
2.0 + 4 × 1.0 = 6.0, so the claimed formula fails. -/
theorem C6_counterexample :
    calc_method_2 0 0 ["C6", "C6", "C6", "C6", "C6", "A1"] = 5 ∧
    (0 : ℚ)/8 + (0 : ℚ)/2 + bestFiveSum gmapM2 ["C6", "C6", "C6", "C6", "C6", "A1"] = 6 ∧
    calc_method_2 0 0 ["C6", "C6", "C6", "C6", "C6", "A1"]
      ≠ (0 : ℚ)/8 + (0 : ℚ)/2 + bestFiveSum gmapM2 ["C6", "C6", "C6", "C6", "C6", "A1"] := by
  have hC6 : gmapM2 (pyUpper "C6") = 1 := rfl
  have hA1 : gmapM2 (pyUpper "A1") = 2 := rfl
  have h5 : calc_method_2 0 0 ["C6", "C6", "C6", "C6", "C6", "A1"] = 5 := by
    simp [calc_method_2, hC6]
    norm_num
  have hmap : (["C6", "C6", "C6", "C6", "C6", "A1"].map (fun g => gmapM2 (pyUpper g)))
      = [1, 1, 1, 1, 1, 2] := by
    simp [hC6, hA1]
  have hsort : sortDesc [1, 1, 1, 1, 1, 2] = [2, 1, 1, 1, 1, 1] := by
    norm_num [sortDesc, insertDesc]
  have h6 : (0 : ℚ)/8 + (0 : ℚ)/2 + bestFiveSum gmapM2 ["C6", "C6", "C6", "C6", "C6", "A1"] = 6 := by
    rw [bestFiveSum, hmap, hsort]
    norm_num
  exact ⟨h5, h6, by rw [h5, h6]; norm_num⟩

/-- C6 amended: the credential contribution is the sum of the weights of
the FIRST five codes of the list (`olevel_grades[:5]`), not of the five
highest-weight codes.  When the list has exactly 5 codes — the shape the
prompt asks for — taking the first five and taking the best five
coincide, and the aggregate equals the spec's best-five formula. -/
theorem C6_first_five (j p : Int) (gs : List String) (h : gs.length = 5) :
    calc_method_2 j p gs = (j : ℚ)/8 + (p : ℚ)/2 + bestFiveSum gmapM2 gs ∧
    calc_method_3 j gs = (j : ℚ)/8 + bestFiveSum gmapM3 gs := by
  have key : ∀ (w : String → ℚ),
      ((sortDesc (gs.map (fun g => w (pyUpper g)))).take 5).sum
        = ((gs.take 5).map (fun g => w (pyUpper g))).sum := by
    intro w
    have hlen : (gs.map (fun g => w (pyUpper g))).length = 5 := by
      rw [List.length_map, h]
    have hperm := sortDesc_perm (gs.map (fun g => w (pyUpper g)))
    have hlen2 : (sortDesc (gs.map (fun g => w (pyUpper g)))).length = 5 := by
      rw [hperm.length_eq, hlen]
    rw [List.take_of_length_le (le_of_eq hlen2),
      show gs.take 5 = gs from List.take_of_length_le (le_of_eq h)]
    exact hperm.sum_eq
  constructor
  · unfold calc_method_2 bestFiveSum
    rw [key gmapM2]
  · unfold calc_method_3 bestFiveSum
    rw [key gmapM3]

/-- Witness for C6 (amended) on a concrete 5-element grade list. -/
theorem C6_witness :
    (["A1", "B2", "B3", "C4", "C5"] : List String).length = 5 ∧
    calc_method_2 320 60 ["A1", "B2", "B3", "C4", "C5"]
      = (320 : ℚ)/8 + (60 : ℚ)/2 + bestFiveSum gmapM2 ["A1", "B2", "B3", "C4", "C5"] :=
  ⟨rfl, (C6_first_five 320 60 ["A1", "B2", "B3", "C4", "C5"] rfl).1⟩

/-! ## Unknown grade codes contribute zero (claim C10) -/

theorem sum_filter_of_vanish (w : String → ℚ) (pfn : String → Bool) (l : List String)
    (h : ∀ x ∈ l, pfn x = false → w x = 0) :
    (l.map w).sum = ((l.filter pfn).map w).sum := by
  induction l with
  | nil => rfl
  | cons x xs ih =>
    have hx := h x (List.mem_cons_self x xs)
    have hxs : ∀ y ∈ xs, pfn y = false → w y = 0 :=
      fun y hy => h y (List.mem_cons_of_mem x hy)
    cases hp : pfn x with
    | true => simp [List.filter_cons, hp, ih hxs]
    | false => simp [List.filter_cons, hp, hx hp, ih hxs]

theorem gmap_unknown_zero (g : String) (h : knownGrade g = false) :
    gmapM2 g = 0 ∧ gmapM3 g = 0 ∧ gmapUnizik g = 0 := by
  simp only [knownGrade, gradeCodes, decide_eq_false_iff_not, List.mem_cons,
    List.not_mem_nil, or_false, not_or] at h
  obtain ⟨h1, h2, h3, h4, h5, h6⟩ := h
  refine ⟨?_, ?_, ?_⟩ <;> simp [gmapM2, gmapM3, gmapUnizik, h1, h2, h3, h4, h5, h6]

/-- C10: a grade code whose upper-cased form is outside the closed
enumeration is weighted 0 by all three tables, and each (total, never
failing) scoring function equals the same formula restricted to the known
codes among the entries it takes — i.e. every unknown code contributes
exactly zero to the aggregate in every variant. -/
theorem C10_unknown_contributes_zero (j p : Int) (s : Bool) (gs : List String)
    (g : String) (hg : knownGrade (pyUpper g) = false) :
    gmapM2 (pyUpper g) = 0 ∧ gmapM3 (pyUpper g) = 0 ∧ gmapUnizik (pyUpper g) = 0 ∧
    calc_method_2 j p gs = (j : ℚ)/8 + (p : ℚ)/2
      + (((gs.take 5).filter (fun x => knownGrade (pyUpper x))).map
          (fun x => gmapM2 (pyUpper x))).sum ∧
    calc_method_3 j gs = (j : ℚ)/8
      + (((gs.take 5).filter (fun x => knownGrade (pyUpper x))).map
          (fun x => gmapM3 (pyUpper x))).sum ∧
    calc_unizik j gs s = (j : ℚ) * (7/10)
      + ((((gs.take 4).filter (fun x => knownGrade (pyUpper x))).map
          (fun x => gmapUnizik (pyUpper x))).sum + (if s then (10 : ℚ) else 0)) * (3/10) := by
  refine ⟨(gmap_unknown_zero _ hg).1, (gmap_unknown_zero _ hg).2.1,
    (gmap_unknown_zero _ hg).2.2, ?_, ?_, ?_⟩
  · unfold calc_method_2
    rw [sum_filter_of_vanish (fun x => gmapM2 (pyUpper x)) (fun x => knownGrade (pyUpper x))
      (gs.take 5) (fun x _ hx => (gmap_unknown_zero _ hx).1)]
  · unfold calc_method_3
    rw [sum_filter_of_vanish (fun x => gmapM3 (pyUpper x)) (fun x => knownGrade (pyUpper x))
      (gs.take 5) (fun x _ hx => (gmap_unknown_zero _ hx).2.1)]
  · simp only [calc_unizik]
    rw [sum_filter_of_vanish (fun x => gmapUnizik (pyUpper x)) (fun x => knownGrade (pyUpper x))
      (gs.take 4) (fun x _ hx => (gmap_unknown_zero _ hx).2.2)]

/-- Witness for C10: the unknown code "ZZ" placed inside a credential list
is weighted 0 and the aggregate equals the sum over the known codes. -/
theorem C10_witness :
    knownGrade (pyUpper "ZZ") = false ∧
    calc_method_2 300 60 ["A1", "ZZ", "B2", "B3", "C4"]
      = (300 : ℚ)/8 + (60 : ℚ)/2
        + (((["A1", "ZZ", "B2", "B3", "C4"].take 5).filter
            (fun x => knownGrade (pyUpper x))).map (fun x => gmapM2 (pyUpper x))).sum :=
  ⟨by decide,
    (C10_unknown_contributes_zero 300 60 true ["A1", "ZZ", "B2", "B3", "C4"] "ZZ"
      (by decide)).2.2.2.1⟩

end JambBot
